import Mathlib

/-!
Verification of the AgentArchitecture workflow-analysis orchestration core.

The definitions below are a shallow embedding of the orchestrator described in
the repository plan documents: the data model (`types.py`, config constants),
the capability-lookup tools (`tools/compliance_checker.py`, `tools/api_lookup.py`),
the merge (`WorkflowAnalyzerOrchestrator._merge_results`), the orchestration
control flow (`WorkflowAnalyzerOrchestrator.analyze_workflow`), and the parser
stage (`WorkflowParserAgent.parse`).  Machine reals (the 0.0-1.0 scores) are
embedded as rationals; Python exceptions are embedded as `Except` values.
-/

namespace AgentArch

/-- One parsed workflow step, as produced by Agent 1 (the Parser stage):
fields `step_id`, `description`, `inputs`, `outputs`, `dependencies`. -/
structure ParsedStep where
  step_id : String
  description : String
  inputs : List String
  outputs : List String
  dependencies : List String
  deriving Repr, DecidableEq

/-- Per-step risk view produced by Agent 2 (the RiskAssessment stage):
`RiskAssessment(step_id, risk_level, requires_hitl, notes)`. -/
structure RiskAssessment where
  step_id : String
  risk_level : String
  requires_hitl : Bool
  notes : String
  deriving Repr, DecidableEq

/-- Per-step automation view produced by Agent 3 (the AutomationAnalysis stage):
`AutomationData(step_id, agent_type, determinism_score, automation_feasibility, notes)`.
The merge code also reads `auto_data.requires_hitl`, so the record carries that
flag as well. -/
structure AutomationData where
  step_id : String
  agent_type : String
  determinism_score : ℚ
  automation_feasibility : ℚ
  requires_hitl : Bool
  notes : String
  deriving Repr, DecidableEq

/-- Merged per-step record (`WorkflowStep` in `types.py`): the union of the
parsed structural fields with the risk and automation fields. -/
structure WorkflowStep where
  step_id : String
  description : String
  inputs : List String
  outputs : List String
  dependencies : List String
  agent_type : String
  determinism_score : ℚ
  automation_feasibility : ℚ
  risk_level : String
  requires_hitl : Bool
  notes : String
  deriving Repr, DecidableEq

/-- Summary statistics (`AutomationSummary` in `types.py`). -/
structure AutomationSummary where
  total_steps : Nat
  automatable_count : Nat
  agent_required_count : Nat
  human_required_count : Nat
  automation_potential : ℚ
  deriving Repr, DecidableEq

/-- Final report (`WorkflowAnalysis` in `types.py`). -/
structure WorkflowAnalysis where
  workflow_name : String
  analysis_timestamp : String
  steps : List WorkflowStep
  summary : AutomationSummary
  key_insights : List String
  risks_and_compliance : List (String × String)
  recommended_architecture : Option String
  deriving Repr, DecidableEq

/-- Configuration constant from `config.py`: `MIN_WORKFLOW_LENGTH = 10`. -/
def MIN_WORKFLOW_LENGTH : Nat := 10

/-- Configuration constant from `config.py`: `MAX_WORKFLOW_LENGTH = 10000`. -/
def MAX_WORKFLOW_LENGTH : Nat := 10000

/-- Configuration constant from `config.py`: `AUTOMATION_FEASIBLE_THRESHOLD = 0.6`. -/
def AUTOMATION_FEASIBLE_THRESHOLD : ℚ := 3 / 5

/-- Configuration constant from `config.py`: the allowed agent classes. -/
def AGENT_TYPES : List String := ["adk_base", "agentic_rag", "TOOL", "HUMAN"]

/-- Configuration constant from `config.py`: the ordered risk levels. -/
def RISK_LEVELS : List String := ["LOW", "MEDIUM", "HIGH", "CRITICAL"]

/-- Result record of the compliance-lookup tool
(`get_compliance_rules(risk_level, domain) -> dict` in `tools/compliance_checker.py`). -/
structure ComplianceResult where
  applicable_rules : List String
  requires_audit : Bool
  hitl_required : Bool
  deriving Repr, DecidableEq

/-- The compliance-lookup tool, from the hardcoded MVP table in
`tools/compliance_checker.py`: keyed on `(risk_level, domain)`, with a wildcard
row for any other `CRITICAL` domain, and the documented default
`applicable_rules = [], requires_audit = False, hitl_required = False` when
nothing matches.  The tool is a total function: a miss returns the default
instead of raising. -/
def get_compliance_rules (risk_level domain : String) : ComplianceResult :=
  if risk_level = "CRITICAL" ∧ domain = "financial" then
    { applicable_rules := ["SOX", "PCI-DSS"], requires_audit := true, hitl_required := true }
  else if risk_level = "CRITICAL" ∧ domain = "healthcare" then
    { applicable_rules := ["HIPAA", "HITECH"], requires_audit := true, hitl_required := true }
  else if risk_level = "HIGH" ∧ domain = "financial" then
    { applicable_rules := ["PCI-DSS"], requires_audit := true, hitl_required := false }
  else if risk_level = "HIGH" ∧ domain = "healthcare" then
    { applicable_rules := ["HIPAA"], requires_audit := false, hitl_required := true }
  else if risk_level = "CRITICAL" then
    { applicable_rules := [], requires_audit := true, hitl_required := true }
  else
    { applicable_rules := [], requires_audit := false, hitl_required := false }

/-- Result record of the API-lookup tool
(`lookup_api_docs(step_description) -> dict` in `tools/api_lookup.py`). -/
structure ApiLookupResult where
  api_exists : Bool
  api_name : Option String
  determinism : ℚ
  notes : String
  deriving Repr, DecidableEq

/-- Does the character list `s` start with the character list `pat`? -/
def charsStartWith : List Char → List Char → Bool
  | [], _ => true
  | _ :: _, [] => false
  | p :: ps, c :: cs => p == c && charsStartWith ps cs

/-- Keyword containment test used by the API-lookup tool
(Python `keyword in step_description`). -/
def strContainsSub (s pat : String) : Bool :=
  (List.range (s.data.length + 1)).any (fun i => charsStartWith pat.data (s.data.drop i))

/-- The hardcoded keyword table of `tools/api_lookup.py`, in source order. -/
def api_db : List (String × ApiLookupResult) :=
  [("email", { api_exists := true, api_name := some "Gmail API", determinism := 1,
               notes := "Fully deterministic" }),
   ("database", { api_exists := true, api_name := some "SQL API", determinism := 1,
                  notes := "Fully deterministic" }),
   ("draft email", { api_exists := true, api_name := some "Gmail API", determinism := 1,
                     notes := "Fully deterministic" }),
   ("review", { api_exists := false, api_name := none, determinism := 1 / 5,
                notes := "Requires judgment" }),
   ("approve", { api_exists := false, api_name := none, determinism := 3 / 10,
                 notes := "Requires judgment" }),
   ("read file", { api_exists := true, api_name := some "File System API", determinism := 1,
                   notes := "Fully deterministic" }),
   ("write file", { api_exists := true, api_name := some "File System API", determinism := 1,
                    notes := "Fully deterministic" }),
   ("fetch", { api_exists := true, api_name := some "HTTP API", determinism := 9 / 10,
               notes := "Mostly deterministic" })]

/-- The API-lookup tool: first keyword of the table contained in the step
description wins; a miss returns the documented no-match default instead of
raising (the miss determinism value follows the documented default example of
the capability-tool interface). -/
def lookup_api_docs (step_description : String) : ApiLookupResult :=
  match api_db.find? (fun e => strContainsSub step_description e.fst) with
  | some e => e.snd
  | none =>
    { api_exists := false, api_name := none, determinism := 1 / 5,
      notes := "No specific API found" }

/-- The step ids of a parsed step list, in order. -/
def stepIds (steps : List ParsedStep) : List String :=
  steps.map ParsedStep.step_id

/-- Per-step body of `WorkflowAnalyzerOrchestrator._merge_results`: look up the
risk and automation views by `step_id` (`next((r for r in risks if ...), None)`)
and build the merged `WorkflowStep`, substituting the documented fallbacks for a
missing view.  `requires_hitl` translates the Python line
`risk_data.requires_hitl or auto_data.requires_hitl if risk_data and auto_data else False`,
which yields `False` unless both views are present. -/
def merge_step (risks : List RiskAssessment) (automation : List AutomationData)
    (step : ParsedStep) : WorkflowStep :=
  let risk_data := risks.find? (fun r => r.step_id == step.step_id)
  let auto_data := automation.find? (fun a => a.step_id == step.step_id)
  { step_id := step.step_id
    description := step.description
    inputs := step.inputs
    outputs := step.outputs
    dependencies := step.dependencies
    agent_type := match auto_data with
      | some a => a.agent_type
      | none => "adk_base"
    determinism_score := match auto_data with
      | some a => a.determinism_score
      | none => 1 / 2
    automation_feasibility := match auto_data with
      | some a => a.automation_feasibility
      | none => 1 / 2
    risk_level := match risk_data with
      | some r => r.risk_level
      | none => "LOW"
    requires_hitl := match risk_data, auto_data with
      | some r, some a => r.requires_hitl || a.requires_hitl
      | _, _ => false
    notes := "Risk: " ++ (match risk_data with
        | some r => r.notes
        | none => "N/A")
      ++ " | Automation: " ++ (match auto_data with
        | some a => a.notes
        | none => "N/A") }

/-- Modelled from the spec: the plan declares the helper `_extract_insights`
(called by `_merge_results`) but never gives its body, only a docstring; the
spec fixes it as a pure, deterministic set of threshold rules over the merged
steps (strong automation potential at ratio at least 0.7, compliance risk on
HIGH or CRITICAL steps, manual bottleneck on HUMAN steps). -/
def extract_insights (merged_steps : List WorkflowStep) : List String :=
  let total := merged_steps.length
  let automatable := merged_steps.countP
    (fun s => decide (AUTOMATION_FEASIBLE_THRESHOLD ≤ s.automation_feasibility))
  let strong : List String :=
    if total ≠ 0 ∧ (7 : ℚ) / 10 ≤ (automatable : ℚ) / (total : ℚ) then
      ["Strong automation potential across the workflow"]
    else []
  let compliance : List String :=
    if merged_steps.any (fun s => s.risk_level == "HIGH" || s.risk_level == "CRITICAL") then
      ["Critical compliance requirements present"]
    else []
  let manual : List String :=
    if merged_steps.any (fun s => s.agent_type == "HUMAN") then
      ["Manual review bottleneck at HUMAN steps"]
    else []
  strong ++ compliance ++ manual

/-- `WorkflowAnalyzerOrchestrator._merge_results`: merge every parsed step with
its risk and automation views, then compute the summary exactly as the source
does (`automatable_count = sum(1 for s in merged_steps if s.automation_feasibility >= 0.6)`,
counts by `agent_type`, and
`automation_potential = automatable_count / len(merged_steps) if merged_steps else 0.0`).
The `analysis_timestamp` parameter stands for the source's `datetime.now().isoformat()`,
the only per-invocation input of the merge. -/
def mergeResults (parsed_steps : List ParsedStep) (risks : List RiskAssessment)
    (automation : List AutomationData) (now : String) : WorkflowAnalysis :=
  let merged_steps := parsed_steps.map (merge_step risks automation)
  let automatable_count := merged_steps.countP
    (fun s => decide ((3 : ℚ) / 5 ≤ s.automation_feasibility))
  let summary : AutomationSummary :=
    { total_steps := merged_steps.length
      automatable_count := automatable_count
      agent_required_count := merged_steps.countP (fun s => !(s.agent_type == "HUMAN"))
      human_required_count := merged_steps.countP (fun s => s.agent_type == "HUMAN")
      automation_potential :=
        if merged_steps.isEmpty then 0
        else (automatable_count : ℚ) / (merged_steps.length : ℚ) }
  { workflow_name := "Analyzed Workflow"
    analysis_timestamp := now
    steps := merged_steps
    summary := summary
    key_insights := extract_insights merged_steps
    risks_and_compliance := []
    recommended_architecture := none }

/-- Errors surfaced by a run.  A `validation` error is raised before the Parser
stage; a `stageFailure` is an exception escaping a stage, logged and re-raised
by the `except` block of `analyze_workflow` together with the run's trace id
(`self.metrics.record_error(trace_id, str(e)); raise`). -/
inductive RunError where
  | validation (trace_id msg : String)
  | stageFailure (trace_id msg : String)
  deriving Repr, DecidableEq

/-- Observable result of one orchestrator run: the returned value or the
surfaced error, the ordered list of pipeline units that executed, and the
entries recorded through `metrics.record_error` (the error log). -/
structure RunResult where
  outcome : Except RunError WorkflowAnalysis
  stagesRun : List String
  error_log : List (String × String)

/-- Control flow of `WorkflowAnalyzerOrchestrator.analyze_workflow`, with each
stage's behaviour on this input summarised by an `Except` value (the stage
either returns its view list or raises).  Mirrors the source: Agent 1 runs
first inside the `try` block; on success Agent 2 and Agent 3 are both launched
and awaited with `asyncio.gather`, which re-raises the first exception of
either task; only when both return does `_merge_results` run.  Any exception
reaches the `except` block, which records `(trace_id, str(e))` and re-raises,
so the caller receives the error rather than a `WorkflowAnalysis`. -/
def analyze_workflow_run (trace_id : String)
    (parser_outcome : Except String (List ParsedStep))
    (risk_outcome : Except String (List RiskAssessment))
    (automation_outcome : Except String (List AutomationData))
    (now : String) : RunResult :=
  match parser_outcome with
  | .error e =>
    { outcome := .error (.stageFailure trace_id e)
      stagesRun := ["agent1_parse"]
      error_log := [(trace_id, e)] }
  | .ok parsed =>
    match risk_outcome, automation_outcome with
    | .error e, _ =>
      { outcome := .error (.stageFailure trace_id e)
        stagesRun := ["agent1_parse", "agent2_risk", "agent3_automation"]
        error_log := [(trace_id, e)] }
    | .ok _, .error e =>
      { outcome := .error (.stageFailure trace_id e)
        stagesRun := ["agent1_parse", "agent2_risk", "agent3_automation"]
        error_log := [(trace_id, e)] }
    | .ok risks, .ok automation =>
      { outcome := .ok (mergeResults parsed risks automation now)
        stagesRun := ["agent1_parse", "agent2_risk", "agent3_automation", "merge_results"]
        error_log := [] }

/-- Modelled from the spec: the bounded-length input check.  `config.py`
defines `MIN_WORKFLOW_LENGTH`/`MAX_WORKFLOW_LENGTH` and the plan's
error-handling strategy commits to rejecting an empty or too-short workflow
with a `ValueError` before the Parser runs, but the orchestrator sketch in the
plan omits the check's body, so it is modelled here from the spec's words:
reject too-short or too-long inputs with a validation error before Parser ever
runs. -/
def validate_workflow_text (workflow_text : String) : Except String Unit :=
  if workflow_text.length < MIN_WORKFLOW_LENGTH then
    .error ("Workflow text too short")
  else if MAX_WORKFLOW_LENGTH < workflow_text.length then
    .error ("Workflow text too long")
  else .ok ()

/-- Modelled from the spec: `analyze_workflow` guarded by the input-length
validation, which runs before the Parser stage; a validation failure surfaces
immediately with the trace id and no stage executes. -/
def analyze_workflow_validated (trace_id workflow_text : String)
    (parser_outcome : Except String (List ParsedStep))
    (risk_outcome : Except String (List RiskAssessment))
    (automation_outcome : Except String (List AutomationData))
    (now : String) : RunResult :=
  match validate_workflow_text workflow_text with
  | .error e =>
    { outcome := .error (.validation trace_id e)
      stagesRun := []
      error_log := [(trace_id, e)] }
  | .ok _ =>
    analyze_workflow_run trace_id parser_outcome risk_outcome automation_outcome now

/-- `WorkflowParserAgent.parse`: the stage calls the model, decodes the JSON
response (`json.loads(response.text)`; a malformed response raises
`json.JSONDecodeError`) and returns the decoded steps as-is
(`return ParsedWorkflow(**parsed)`).  The model collaborator's decoded
response is the stage's external input: `none` stands for a response that is
not valid JSON.  No structural validation of the steps is performed. -/
def parse (model_response : Option (List ParsedStep)) : Except String (List ParsedStep) :=
  match model_response with
  | none => .error ("JSONDecodeError")
  | some steps => .ok steps

/-- Dependency relation over a parsed step set: `sid` depends on `did` when
some step with id `sid` lists `did` in its `dependencies`. -/
def DependsOn (steps : List ParsedStep) (sid did : String) : Prop :=
  ∃ s ∈ steps, s.step_id = sid ∧ did ∈ s.dependencies

/-- Acyclicity half of the parsed-step invariant: no step id transitively
depends on itself. -/
def Acyclic (steps : List ParsedStep) : Prop :=
  ∀ sid, ¬ Relation.TransGen (DependsOn steps) sid sid

/-- Closure half of the parsed-step invariant: every id listed in any step's
`dependencies` exists in the parsed step set. -/
def DepClosed (steps : List ParsedStep) : Prop :=
  ∀ s ∈ steps, ∀ d ∈ s.dependencies, d ∈ stepIds steps

/-- Sample parsed step used by concrete witnesses: no dependencies. -/
def sampleStep1 : ParsedStep :=
  { step_id := "step_1", description := "Receive customer email",
    inputs := ["incoming email message"], outputs := ["parsed email content"],
    dependencies := [] }

/-- Sample parsed step used by concrete witnesses: depends on `step_1`. -/
def sampleStep2 : ParsedStep :=
  { step_id := "step_2", description := "Human review of draft",
    inputs := ["draft response"], outputs := ["approved response"],
    dependencies := ["step_1"] }

/-- Sample parsed-step list used by concrete witnesses. -/
def sampleParsed : List ParsedStep := [sampleStep1, sampleStep2]

/-- Sample risk views used by concrete witnesses: only `step_1` has one, and it
flags human review. -/
def sampleRisks : List RiskAssessment :=
  [{ step_id := "step_1", risk_level := "MEDIUM", requires_hitl := true,
     notes := "standard operations" }]

/-- Sample automation views used by concrete witnesses: only `step_2` has one. -/
def sampleAutomation : List AutomationData :=
  [{ step_id := "step_2", agent_type := "HUMAN", determinism_score := 3 / 10,
     automation_feasibility := 2 / 5, requires_hitl := true,
     notes := "judgment needed" }]

/-- Sample self-dependent step: decodes from a syntactically valid model
response but violates the acyclicity invariant. -/
def loopStep : ParsedStep :=
  { step_id := "step_1", description := "Process data",
    inputs := [], outputs := [], dependencies := ["step_1"] }

/-!  Helper lemmas shared by the claim theorems. -/

theorem merge_step_step_id (risks : List RiskAssessment) (automation : List AutomationData)
    (p : ParsedStep) : (merge_step risks automation p).step_id = p.step_id := rfl

theorem mergeResults_steps (parsed : List ParsedStep) (risks : List RiskAssessment)
    (automation : List AutomationData) (now : String) :
    (mergeResults parsed risks automation now).steps
      = parsed.map (merge_step risks automation) := rfl

theorem merged_ids (parsed : List ParsedStep) (risks : List RiskAssessment)
    (automation : List AutomationData) :
    (parsed.map (merge_step risks automation)).map WorkflowStep.step_id = stepIds parsed := by
  induction parsed with
  | nil => rfl
  | cons p ps ih =>
    show (merge_step risks automation p).step_id
        :: (ps.map (merge_step risks automation)).map WorkflowStep.step_id
      = p.step_id :: stepIds ps
    rw [merge_step_step_id, ih]

theorem countP_beq_zero_of_not_mem (sid : String) :
    ∀ l : List String, sid ∉ l → l.countP (fun x => x == sid) = 0 := by
  intro l
  induction l with
  | nil => intro _; rfl
  | cons a t ih =>
    intro h
    have ha : ¬(a == sid) = true := by
      simp only [beq_iff_eq]
      intro hEq
      exact h (hEq ▸ List.mem_cons_self a t)
    have ht : sid ∉ t := fun hm => h (List.mem_cons_of_mem a hm)
    simp [List.countP_cons, ih ht, ha]

theorem countP_beq_one_of_nodup_mem (sid : String) :
    ∀ l : List String, l.Nodup → sid ∈ l → l.countP (fun x => x == sid) = 1 := by
  intro l
  induction l with
  | nil => intro _ hm; exact absurd hm (List.not_mem_nil sid)
  | cons a t ih =>
    intro hnd hm
    have hnd' := List.nodup_cons.mp hnd
    rcases List.mem_cons.mp hm with hEq | hmem
    · subst hEq
      simp [List.countP_cons, countP_beq_zero_of_not_mem sid t hnd'.1]
    · have ha : ¬(a == sid) = true := by
        simp only [beq_iff_eq]
        intro hEq
        exact hnd'.1 (hEq ▸ hmem)
      simp [List.countP_cons, ih hnd'.2 hmem, ha]

theorem merge_step_risk_none (risks : List RiskAssessment) (automation : List AutomationData)
    (p : ParsedStep) (h : risks.find? (fun r => r.step_id == p.step_id) = none) :
    (merge_step risks automation p).risk_level = "LOW"
      ∧ (merge_step risks automation p).requires_hitl = false := by
  cases hauto : automation.find? (fun a => a.step_id == p.step_id) <;>
    simp [merge_step, h, hauto]

theorem merge_step_auto_none (risks : List RiskAssessment) (automation : List AutomationData)
    (p : ParsedStep) (h : automation.find? (fun a => a.step_id == p.step_id) = none) :
    (merge_step risks automation p).agent_type = "adk_base"
      ∧ (merge_step risks automation p).determinism_score = 1 / 2
      ∧ (merge_step risks automation p).automation_feasibility = 1 / 2
      ∧ (merge_step risks automation p).requires_hitl = false := by
  cases hrisk : risks.find? (fun r => r.step_id == p.step_id) <;>
    simp [merge_step, h, hrisk]

theorem merge_step_both (risks : List RiskAssessment) (automation : List AutomationData)
    (p : ParsedStep) (r : RiskAssessment) (a : AutomationData)
    (hr : risks.find? (fun x => x.step_id == p.step_id) = some r)
    (ha : automation.find? (fun x => x.step_id == p.step_id) = some a) :
    (merge_step risks automation p).risk_level = r.risk_level
      ∧ (merge_step risks automation p).requires_hitl = (r.requires_hitl || a.requires_hitl)
      ∧ (merge_step risks automation p).agent_type = a.agent_type
      ∧ (merge_step risks automation p).determinism_score = a.determinism_score
      ∧ (merge_step risks automation p).automation_feasibility = a.automation_feasibility := by
  simp [merge_step, hr, ha]

theorem merged_countP_eq (parsed : List ParsedStep) (risks : List RiskAssessment)
    (automation : List AutomationData) (sid : String) :
    (parsed.map (merge_step risks automation)).countP (fun s => s.step_id == sid)
      = (stepIds parsed).countP (fun x => x == sid) := by
  rw [List.countP_map]
  show parsed.countP (fun p => p.step_id == sid) = _
  rw [stepIds, List.countP_map]
  rfl

/-- Claim C1: for every run reaching the merge, each id of the parsed step set
appears exactly once in the merged `WorkflowAnalysis.steps` (given the parsed
ids are unique, as the parsed-step invariant requires); a step with a missing
risk view gets risk_level LOW and requires_hitl false, a step with a missing
automation view gets agent_type adk_base (a non-human class) with determinism
and feasibility 1/2, and a step with both views present keeps the real view
values. -/
theorem merge_total_exactly_once (parsed : List ParsedStep) (risks : List RiskAssessment)
    (automation : List AutomationData) (now : String)
    (hnodup : (stepIds parsed).Nodup) :
    ((mergeResults parsed risks automation now).steps.map WorkflowStep.step_id = stepIds parsed)
    ∧ (∀ sid ∈ stepIds parsed,
        (mergeResults parsed risks automation now).steps.countP (fun s => s.step_id == sid) = 1)
    ∧ (∀ p ∈ parsed,
        merge_step risks automation p ∈ (mergeResults parsed risks automation now).steps
        ∧ (risks.find? (fun r => r.step_id == p.step_id) = none →
            (merge_step risks automation p).risk_level = "LOW"
              ∧ (merge_step risks automation p).requires_hitl = false)
        ∧ (automation.find? (fun a => a.step_id == p.step_id) = none →
            (merge_step risks automation p).agent_type = "adk_base"
              ∧ (merge_step risks automation p).agent_type ≠ "HUMAN"
              ∧ (merge_step risks automation p).determinism_score = 1 / 2
              ∧ (merge_step risks automation p).automation_feasibility = 1 / 2)
        ∧ (∀ r a, risks.find? (fun x => x.step_id == p.step_id) = some r →
            automation.find? (fun x => x.step_id == p.step_id) = some a →
            (merge_step risks automation p).risk_level = r.risk_level
              ∧ (merge_step risks automation p).requires_hitl
                  = (r.requires_hitl || a.requires_hitl)
              ∧ (merge_step risks automation p).agent_type = a.agent_type
              ∧ (merge_step risks automation p).determinism_score = a.determinism_score
              ∧ (merge_step risks automation p).automation_feasibility
                  = a.automation_feasibility)) := by
  refine ⟨?_, ?_, ?_⟩
  · rw [mergeResults_steps]
    exact merged_ids parsed risks automation
  · intro sid hsid
    rw [mergeResults_steps, merged_countP_eq]
    exact countP_beq_one_of_nodup_mem sid (stepIds parsed) hnodup hsid
  · intro p hp
    refine ⟨?_, ?_, ?_, ?_⟩
    · rw [mergeResults_steps]
      exact List.mem_map_of_mem (merge_step risks automation) hp
    · intro h
      exact merge_step_risk_none risks automation p h
    · intro h
      obtain ⟨h1, h2, h3, _⟩ := merge_step_auto_none risks automation p h
      refine ⟨h1, ?_, h2, h3⟩
      rw [h1]
      decide
    · intro r a hr ha
      exact merge_step_both risks automation p r a hr ha

/-- Witness for C1: the sample run (unique ids; `step_1` lacks an automation
view, `step_2` lacks a risk view) instantiates the merge-totality theorem. -/
theorem merge_total_exactly_once_witness :
    (stepIds sampleParsed).Nodup
    ∧ (((mergeResults sampleParsed sampleRisks sampleAutomation ("t0")).steps.map
          WorkflowStep.step_id = stepIds sampleParsed)
      ∧ (∀ sid ∈ stepIds sampleParsed,
          (mergeResults sampleParsed sampleRisks sampleAutomation ("t0")).steps.countP
            (fun s => s.step_id == sid) = 1)
      ∧ (∀ p ∈ sampleParsed,
          merge_step sampleRisks sampleAutomation p
              ∈ (mergeResults sampleParsed sampleRisks sampleAutomation ("t0")).steps
          ∧ (sampleRisks.find? (fun r => r.step_id == p.step_id) = none →
              (merge_step sampleRisks sampleAutomation p).risk_level = "LOW"
                ∧ (merge_step sampleRisks sampleAutomation p).requires_hitl = false)
          ∧ (sampleAutomation.find? (fun a => a.step_id == p.step_id) = none →
              (merge_step sampleRisks sampleAutomation p).agent_type = "adk_base"
                ∧ (merge_step sampleRisks sampleAutomation p).agent_type ≠ "HUMAN"
                ∧ (merge_step sampleRisks sampleAutomation p).determinism_score = 1 / 2
                ∧ (merge_step sampleRisks sampleAutomation p).automation_feasibility = 1 / 2)
          ∧ (∀ r a, sampleRisks.find? (fun x => x.step_id == p.step_id) = some r →
              sampleAutomation.find? (fun x => x.step_id == p.step_id) = some a →
              (merge_step sampleRisks sampleAutomation p).risk_level = r.risk_level
                ∧ (merge_step sampleRisks sampleAutomation p).requires_hitl
                    = (r.requires_hitl || a.requires_hitl)
                ∧ (merge_step sampleRisks sampleAutomation p).agent_type = a.agent_type
                ∧ (merge_step sampleRisks sampleAutomation p).determinism_score
                    = a.determinism_score
                ∧ (merge_step sampleRisks sampleAutomation p).automation_feasibility
                    = a.automation_feasibility))) :=
  ⟨by decide,
   merge_total_exactly_once sampleParsed sampleRisks sampleAutomation ("t0") (by decide)⟩

/-- Claim C6: the merge is deterministic — the merged `steps` sequence is a
function of the (parsed, risks, automation) triple alone; in particular it does
not depend on the per-invocation timestamp, the only other input of
`_merge_results`. -/
theorem merge_deterministic (parsed : List ParsedStep) (risks : List RiskAssessment)
    (automation : List AutomationData) (now₁ now₂ : String) :
    (mergeResults parsed risks automation now₁).steps
      = (mergeResults parsed risks automation now₂).steps := rfl

theorem mergeResults_summary (parsed : List ParsedStep) (risks : List RiskAssessment)
    (automation : List AutomationData) (now : String) :
    (mergeResults parsed risks automation now).summary
      = { total_steps := (parsed.map (merge_step risks automation)).length
          automatable_count := (parsed.map (merge_step risks automation)).countP
            (fun s => decide ((3 : ℚ) / 5 ≤ s.automation_feasibility))
          agent_required_count := (parsed.map (merge_step risks automation)).countP
            (fun s => !(s.agent_type == "HUMAN"))
          human_required_count := (parsed.map (merge_step risks automation)).countP
            (fun s => s.agent_type == "HUMAN")
          automation_potential :=
            if (parsed.map (merge_step risks automation)).isEmpty then 0
            else (((parsed.map (merge_step risks automation)).countP
                (fun s => decide ((3 : ℚ) / 5 ≤ s.automation_feasibility))) : ℚ)
              / (((parsed.map (merge_step risks automation)).length : ℚ)) } := rfl

theorem map_merge_not_isEmpty (parsed : List ParsedStep) (risks : List RiskAssessment)
    (automation : List AutomationData) (hne : parsed ≠ []) :
    (parsed.map (merge_step risks automation)).isEmpty = false := by
  cases parsed with
  | nil => exact absurd rfl hne
  | cons p ps => rfl

/-- Claim C3: in every merged analysis with a non-empty step list,
`automatable_count` counts exactly the merged steps whose feasibility is at
least the configured 0.6 threshold, `automation_potential` equals
`automatable_count / total_steps` exactly, and it lies in the interval
from 0 to 1. -/
theorem summary_counts_exact (parsed : List ParsedStep) (risks : List RiskAssessment)
    (automation : List AutomationData) (now : String) (hne : parsed ≠ []) :
    (mergeResults parsed risks automation now).summary.automatable_count
      = ((mergeResults parsed risks automation now).steps.filter
          (fun s => decide ((3 : ℚ) / 5 ≤ s.automation_feasibility))).length
    ∧ (mergeResults parsed risks automation now).summary.total_steps
      = (mergeResults parsed risks automation now).steps.length
    ∧ (mergeResults parsed risks automation now).summary.automation_potential
      = ((mergeResults parsed risks automation now).summary.automatable_count : ℚ)
        / ((mergeResults parsed risks automation now).summary.total_steps : ℚ)
    ∧ 0 ≤ (mergeResults parsed risks automation now).summary.automation_potential
    ∧ (mergeResults parsed risks automation now).summary.automation_potential ≤ 1 := by
  have hsum := mergeResults_summary parsed risks automation now
  have hempty := map_merge_not_isEmpty parsed risks automation hne
  have hcount : (mergeResults parsed risks automation now).summary.automatable_count
      = (parsed.map (merge_step risks automation)).countP
          (fun s => decide ((3 : ℚ) / 5 ≤ s.automation_feasibility)) := by
    rw [hsum]
  have htot : (mergeResults parsed risks automation now).summary.total_steps
      = (parsed.map (merge_step risks automation)).length := by
    rw [hsum]
  have hpot : (mergeResults parsed risks automation now).summary.automation_potential
      = (((parsed.map (merge_step risks automation)).countP
            (fun s => decide ((3 : ℚ) / 5 ≤ s.automation_feasibility))) : ℚ)
          / (((parsed.map (merge_step risks automation)).length : ℚ)) := by
    rw [hsum]
    simp [hempty]
  have hlenpos : 0 < (parsed.map (merge_step risks automation)).length := by
    rw [List.length_map]
    exact List.length_pos.mpr hne
  have hle : (parsed.map (merge_step risks automation)).countP
      (fun s => decide ((3 : ℚ) / 5 ≤ s.automation_feasibility))
      ≤ (parsed.map (merge_step risks automation)).length :=
    List.countP_le_length _
  refine ⟨?_, ?_, ?_, ?_, ?_⟩
  · rw [hcount, mergeResults_steps]
    exact List.countP_eq_length_filter _ _
  · rw [htot, mergeResults_steps]
  · rw [hpot, hcount, htot]
  · rw [hpot]
    exact div_nonneg (Nat.cast_nonneg _) (Nat.cast_nonneg _)
  · rw [hpot]
    have hbpos : (0 : ℚ) < ((parsed.map (merge_step risks automation)).length : ℚ) := by
      exact_mod_cast hlenpos
    exact (div_le_one hbpos).mpr (by exact_mod_cast hle)

/-- Witness for C3: the sample run instantiates the summary theorem. -/
theorem summary_counts_exact_witness :
    sampleParsed ≠ []
    ∧ ((mergeResults sampleParsed sampleRisks sampleAutomation ("t0")).summary.automatable_count
        = ((mergeResults sampleParsed sampleRisks sampleAutomation ("t0")).steps.filter
            (fun s => decide ((3 : ℚ) / 5 ≤ s.automation_feasibility))).length
      ∧ (mergeResults sampleParsed sampleRisks sampleAutomation ("t0")).summary.total_steps
        = (mergeResults sampleParsed sampleRisks sampleAutomation ("t0")).steps.length
      ∧ (mergeResults sampleParsed sampleRisks sampleAutomation ("t0")).summary.automation_potential
        = ((mergeResults sampleParsed sampleRisks sampleAutomation
              ("t0")).summary.automatable_count : ℚ)
          / ((mergeResults sampleParsed sampleRisks sampleAutomation
              ("t0")).summary.total_steps : ℚ)
      ∧ 0 ≤ (mergeResults sampleParsed sampleRisks sampleAutomation
              ("t0")).summary.automation_potential
      ∧ (mergeResults sampleParsed sampleRisks sampleAutomation
              ("t0")).summary.automation_potential ≤ 1) :=
  ⟨by decide,
   summary_counts_exact sampleParsed sampleRisks sampleAutomation ("t0") (by decide)⟩

/-- Claim C4: a Parser-stage failure aborts the whole run — the surfaced error
carries the run's trace id, the error log records it, and only the parse unit
executed (no RiskAssessment, AutomationAnalysis or Merge work, and no partial
`WorkflowAnalysis`). -/
theorem parser_failure_aborts_run (tid e : String)
    (ro : Except String (List RiskAssessment))
    (ao : Except String (List AutomationData)) (now : String) :
    (analyze_workflow_run tid (Except.error e) ro ao now).outcome
        = Except.error (RunError.stageFailure tid e)
    ∧ (analyze_workflow_run tid (Except.error e) ro ao now).error_log = [(tid, e)]
    ∧ (analyze_workflow_run tid (Except.error e) ro ao now).stagesRun = ["agent1_parse"] :=
  ⟨rfl, rfl, rfl⟩

/-- Counterexample to claim C2 as stated: with the Parser succeeded and the
RiskAssessment stage raising, the orchestrator does not proceed to Merge and
does not return a `WorkflowAnalysis`; it surfaces the error
(`asyncio.gather` re-raises, the `except` block records and re-raises). -/
theorem risk_failure_aborts_run_counterexample :
    (analyze_workflow_run ("trace-1") (Except.ok sampleParsed)
        (Except.error ("risk stage boom")) (Except.ok sampleAutomation) ("t0")).outcome
      = Except.error (RunError.stageFailure ("trace-1") ("risk stage boom"))
    ∧ ("merge_results") ∉ (analyze_workflow_run ("trace-1") (Except.ok sampleParsed)
        (Except.error ("risk stage boom")) (Except.ok sampleAutomation) ("t0")).stagesRun :=
  ⟨rfl, by decide⟩

/-- Claim C2 (amended): a RiskAssessment or AutomationAnalysis failure after a
successful parse aborts the run — the failure is recorded in the error log
with the trace id, Merge does not run, and the caller receives the error
rather than a `WorkflowAnalysis`.  Fallback views are substituted only per
step id when both analysis stages return successfully but omit a view for
that id, in which case the run does proceed to Merge and returns a
`WorkflowAnalysis`. -/
theorem stage_failure_policy :
    (∀ (tid e : String) (parsed : List ParsedStep)
        (ao : Except String (List AutomationData)) (now : String),
      (analyze_workflow_run tid (Except.ok parsed) (Except.error e) ao now).outcome
          = Except.error (RunError.stageFailure tid e)
      ∧ (analyze_workflow_run tid (Except.ok parsed) (Except.error e) ao now).error_log
          = [(tid, e)]
      ∧ ("merge_results")
          ∉ (analyze_workflow_run tid (Except.ok parsed) (Except.error e) ao now).stagesRun)
    ∧ (∀ (tid e : String) (parsed : List ParsedStep) (risks : List RiskAssessment)
        (now : String),
      (analyze_workflow_run tid (Except.ok parsed) (Except.ok risks)
          (Except.error e) now).outcome
          = Except.error (RunError.stageFailure tid e)
      ∧ (analyze_workflow_run tid (Except.ok parsed) (Except.ok risks)
          (Except.error e) now).error_log = [(tid, e)]
      ∧ ("merge_results") ∉ (analyze_workflow_run tid (Except.ok parsed) (Except.ok risks)
          (Except.error e) now).stagesRun)
    ∧ (∀ (tid : String) (parsed : List ParsedStep) (risks : List RiskAssessment)
        (automation : List AutomationData) (now : String),
      (analyze_workflow_run tid (Except.ok parsed) (Except.ok risks)
          (Except.ok automation) now).outcome
          = Except.ok (mergeResults parsed risks automation now)
      ∧ ∀ p ∈ parsed,
          merge_step risks automation p ∈ (mergeResults parsed risks automation now).steps
          ∧ (risks.find? (fun r => r.step_id == p.step_id) = none →
              (merge_step risks automation p).risk_level = "LOW"
                ∧ (merge_step risks automation p).requires_hitl = false)
          ∧ (automation.find? (fun a => a.step_id == p.step_id) = none →
              (merge_step risks automation p).agent_type = "adk_base"
                ∧ (merge_step risks automation p).determinism_score = 1 / 2
                ∧ (merge_step risks automation p).automation_feasibility = 1 / 2)) := by
  refine ⟨?_, ?_, ?_⟩
  · intro tid e parsed ao now
    refine ⟨rfl, rfl, ?_⟩
    show ("merge_results") ∉ ["agent1_parse", "agent2_risk", "agent3_automation"]
    decide
  · intro tid e parsed risks now
    refine ⟨rfl, rfl, ?_⟩
    show ("merge_results") ∉ ["agent1_parse", "agent2_risk", "agent3_automation"]
    decide
  · intro tid parsed risks automation now
    refine ⟨rfl, ?_⟩
    intro p hp
    refine ⟨?_, ?_, ?_⟩
    · rw [mergeResults_steps]
      exact List.mem_map_of_mem (merge_step risks automation) hp
    · intro h
      exact merge_step_risk_none risks automation p h
    · intro h
      obtain ⟨h1, h2, h3, _⟩ := merge_step_auto_none risks automation p h
      exact ⟨h1, h2, h3⟩

/-- Witness for C2 (amended): a concrete fully successful run returns the
merged analysis. -/
theorem stage_failure_policy_witness :
    (analyze_workflow_run ("trace-2") (Except.ok sampleParsed) (Except.ok sampleRisks)
        (Except.ok sampleAutomation) ("t0")).outcome
      = Except.ok (mergeResults sampleParsed sampleRisks sampleAutomation ("t0")) :=
  (stage_failure_policy.2.2 ("trace-2") sampleParsed sampleRisks sampleAutomation ("t0")).1

/-- Claim C5: an input workflow text shorter than the configured minimum or
longer than the configured maximum is rejected with a validation error before
the Parser stage runs (validation modelled from the spec, constants from
`config.py`). -/
theorem out_of_bounds_rejected (tid text : String)
    (po : Except String (List ParsedStep))
    (ro : Except String (List RiskAssessment))
    (ao : Except String (List AutomationData)) (now : String)
    (hlen : text.length < MIN_WORKFLOW_LENGTH ∨ MAX_WORKFLOW_LENGTH < text.length) :
    (∃ msg, (analyze_workflow_validated tid text po ro ao now).outcome
        = Except.error (RunError.validation tid msg))
    ∧ (analyze_workflow_validated tid text po ro ao now).stagesRun = []
    ∧ ("agent1_parse") ∉ (analyze_workflow_validated tid text po ro ao now).stagesRun := by
  rcases hlen with h | h
  · have hv : validate_workflow_text text = Except.error ("Workflow text too short") := by
      unfold validate_workflow_text
      rw [if_pos h]
    refine ⟨⟨("Workflow text too short"), ?_⟩, ?_, ?_⟩ <;>
      simp [analyze_workflow_validated, hv]
  · have h1 : ¬ text.length < MIN_WORKFLOW_LENGTH := by
      unfold MIN_WORKFLOW_LENGTH
      unfold MAX_WORKFLOW_LENGTH at h
      omega
    have hv : validate_workflow_text text = Except.error ("Workflow text too long") := by
      unfold validate_workflow_text
      rw [if_neg h1, if_pos h]
    refine ⟨⟨("Workflow text too long"), ?_⟩, ?_, ?_⟩ <;>
      simp [analyze_workflow_validated, hv]

/-- Witness for C5: the five-character text is below the minimum length and is
rejected before the Parser runs. -/
theorem out_of_bounds_rejected_witness :
    (("short") : String).length < MIN_WORKFLOW_LENGTH
    ∧ ((∃ msg, (analyze_workflow_validated ("trace-3") ("short") (Except.ok sampleParsed)
          (Except.ok sampleRisks) (Except.ok sampleAutomation) ("t0")).outcome
          = Except.error (RunError.validation ("trace-3") msg))
      ∧ (analyze_workflow_validated ("trace-3") ("short") (Except.ok sampleParsed)
          (Except.ok sampleRisks) (Except.ok sampleAutomation) ("t0")).stagesRun = []
      ∧ ("agent1_parse") ∉ (analyze_workflow_validated ("trace-3") ("short")
          (Except.ok sampleParsed) (Except.ok sampleRisks) (Except.ok sampleAutomation)
          ("t0")).stagesRun) :=
  ⟨by decide,
   out_of_bounds_rejected ("trace-3") ("short") (Except.ok sampleParsed)
     (Except.ok sampleRisks) (Except.ok sampleAutomation) ("t0") (Or.inl (by decide))⟩

/-- Claim C9: in the merged output, `requires_hitl` is false whenever exactly
one of the two partial views is present — even when the present view flags
human review — and equals the disjunction of the two views' flags exactly when
both views are present. -/
theorem hitl_requires_both_views (parsed : List ParsedStep) (risks : List RiskAssessment)
    (automation : List AutomationData) (now : String) :
    ∀ p ∈ parsed,
      merge_step risks automation p ∈ (mergeResults parsed risks automation now).steps
      ∧ (∀ r, risks.find? (fun x => x.step_id == p.step_id) = some r →
          automation.find? (fun x => x.step_id == p.step_id) = none →
          (merge_step risks automation p).requires_hitl = false)
      ∧ (∀ a, risks.find? (fun x => x.step_id == p.step_id) = none →
          automation.find? (fun x => x.step_id == p.step_id) = some a →
          (merge_step risks automation p).requires_hitl = false)
      ∧ (∀ r a, risks.find? (fun x => x.step_id == p.step_id) = some r →
          automation.find? (fun x => x.step_id == p.step_id) = some a →
          (merge_step risks automation p).requires_hitl
            = (r.requires_hitl || a.requires_hitl)) := by
  intro p hp
  refine ⟨?_, ?_, ?_, ?_⟩
  · rw [mergeResults_steps]
    exact List.mem_map_of_mem (merge_step risks automation) hp
  · intro r hr ha
    simp [merge_step, hr, ha]
  · intro a hr ha
    simp [merge_step, hr, ha]
  · intro r a hr ha
    simp [merge_step, hr, ha]

/-- Witness for C9: `step_1` of the sample run has a risk view flagging human
review and no automation view, yet its merged `requires_hitl` is false. -/
theorem hitl_requires_both_views_witness :
    sampleStep1 ∈ sampleParsed
    ∧ (sampleRisks.find? (fun x => x.step_id == sampleStep1.step_id)
        = some { step_id := "step_1", risk_level := "MEDIUM", requires_hitl := true,
                 notes := "standard operations" })
    ∧ sampleAutomation.find? (fun x => x.step_id == sampleStep1.step_id) = none
    ∧ (merge_step sampleRisks sampleAutomation sampleStep1).requires_hitl = false :=
  ⟨by decide, rfl, rfl,
   ((hitl_requires_both_views sampleParsed sampleRisks sampleAutomation ("t0"))
       sampleStep1 (by decide)).2.1
     { step_id := "step_1", risk_level := "MEDIUM", requires_hitl := true,
       notes := "standard operations" } rfl rfl⟩

/-- Counterexample to claim C7 as stated: the Parser stage performs no
structural check, so for an in-bounds workflow text, a well-formed model
response containing a self-dependent step is returned as the parsed step set
and violates the acyclicity half of the invariant. -/
theorem parser_invariant_counterexample :
    MIN_WORKFLOW_LENGTH ≤ (("Step 1: Process data repeatedly") : String).length
    ∧ (("Step 1: Process data repeatedly") : String).length ≤ MAX_WORKFLOW_LENGTH
    ∧ parse (some [loopStep]) = Except.ok [loopStep]
    ∧ ¬ Acyclic [loopStep] := by
  refine ⟨by decide, by decide, rfl, ?_⟩
  intro h
  refine h ("step_1") (Relation.TransGen.single ?_)
  exact ⟨loopStep, by decide, rfl, by decide⟩

/-- Claim C7 (amended): the Parser returns exactly the decoded model-response
steps, adding no acyclicity or dependency-existence validation of its own; the
parsed-step invariant therefore holds exactly when the model's decoded
response already satisfies it. -/
theorem parse_propagates_invariant (resp steps : List ParsedStep)
    (h : parse (some resp) = Except.ok steps)
    (hdag : Acyclic resp) (hclosed : DepClosed resp) :
    steps = resp ∧ Acyclic steps ∧ DepClosed steps := by
  have hsteps : resp = steps := Except.ok.inj h
  subst hsteps
  exact ⟨rfl, hdag, hclosed⟩

theorem sampleParsed_dependsOn (a b : String) (h : DependsOn sampleParsed a b) :
    a = "step_2" ∧ b = "step_1" := by
  obtain ⟨s, hs, hid, hdep⟩ := h
  rcases List.mem_cons.mp hs with h1 | h2
  · subst h1
    exact absurd hdep (List.not_mem_nil b)
  · have h3 : s = sampleStep2 := by
      simpa [sampleParsed] using h2
    subst h3
    have hb : b = "step_1" := by
      simpa [sampleStep2] using hdep
    exact ⟨hid.symm ▸ rfl, hb⟩

theorem sampleParsed_acyclic : Acyclic sampleParsed := by
  have htg : ∀ a b, Relation.TransGen (DependsOn sampleParsed) a b →
      a = "step_2" ∧ b = "step_1" := by
    intro a b h
    induction h with
    | single h1 => exact sampleParsed_dependsOn _ _ h1
    | tail _ h2 ih =>
      have hmid := sampleParsed_dependsOn _ _ h2
      exact absurd (ih.2.symm.trans hmid.1) (by decide)
  intro sid h
  have hs := htg sid sid h
  exact absurd (hs.1.symm.trans hs.2) (by decide)

/-- Witness for C7 (amended): the sample parsed chain (step_2 depends on
step_1) satisfies the invariant and the Parser passes it through unchanged. -/
theorem parse_propagates_invariant_witness :
    parse (some sampleParsed) = Except.ok sampleParsed
    ∧ (sampleParsed = sampleParsed ∧ Acyclic sampleParsed ∧ DepClosed sampleParsed) :=
  ⟨rfl, parse_propagates_invariant sampleParsed sampleParsed rfl
    sampleParsed_acyclic (by unfold DepClosed; decide)⟩

/-- Claim C8: the registered capability-lookup tools are total — a miss
returns the documented default result instead of raising (for the compliance
tool: no applicable rules, no audit, no HITL), and the inputs CRITICAL and
financial yield the non-empty rule list with `requires_audit = true`. -/
theorem tools_total_with_defaults :
    (∀ risk_level domain : String,
        risk_level ≠ "CRITICAL" →
        ¬(risk_level = "HIGH" ∧ (domain = "financial" ∨ domain = "healthcare")) →
        get_compliance_rules risk_level domain
          = { applicable_rules := [], requires_audit := false, hitl_required := false })
    ∧ (get_compliance_rules ("CRITICAL") ("financial")
          = { applicable_rules := ["SOX", "PCI-DSS"], requires_audit := true,
              hitl_required := true }
        ∧ (get_compliance_rules ("CRITICAL") ("financial")).applicable_rules ≠ []
        ∧ (get_compliance_rules ("CRITICAL") ("financial")).requires_audit = true)
    ∧ (∀ s : String,
        api_db.find? (fun e => strContainsSub s e.fst) = none →
        lookup_api_docs s
          = { api_exists := false, api_name := none, determinism := 1 / 5,
              notes := "No specific API found" }) := by
  refine ⟨?_, ⟨by decide, by decide, by decide⟩, ?_⟩
  · intro rl d h1 h2
    have c1 : ¬(rl = "CRITICAL" ∧ d = "financial") := fun hc => h1 hc.1
    have c2 : ¬(rl = "CRITICAL" ∧ d = "healthcare") := fun hc => h1 hc.1
    have c3 : ¬(rl = "HIGH" ∧ d = "financial") := fun hc => h2 ⟨hc.1, Or.inl hc.2⟩
    have c4 : ¬(rl = "HIGH" ∧ d = "healthcare") := fun hc => h2 ⟨hc.1, Or.inr hc.2⟩
    simp [get_compliance_rules, c1, c2, c3, c4, h1]
  · intro s h
    simp [lookup_api_docs, h]

/-- Witness for C8: a miss of the compliance table and a step description
matching no API keyword both return the documented defaults. -/
theorem tools_total_with_defaults_witness :
    get_compliance_rules ("LOW") ("general")
        = { applicable_rules := [], requires_audit := false, hitl_required := false }
    ∧ lookup_api_docs ("categorize the request")
        = { api_exists := false, api_name := none, determinism := 1 / 5,
            notes := "No specific API found" } :=
  ⟨tools_total_with_defaults.1 ("LOW") ("general") (by decide) (by decide),
   tools_total_with_defaults.2.2 ("categorize the request") (by decide)⟩

end AgentArch
